import Mathlib

/-!
Shallow embedding of the authentication & authorization core of the
`go-backend-template` repository: credential hasher, JWT token service,
access-policy middleware (auth gate, role gate, self-or-admin gate),
domain error taxonomy and the account service (create, update, change
password, login).  Go functions become Lean functions; the repository
and hasher collaborators (dependency-injected interfaces in Go) become
records of functions; machine integers become `Int`; fallible calls
return `Except`.  Service functions additionally return the list of
collaborator calls they performed, so that "operation X was never
invoked" claims can be stated about the call trace.
-/

namespace GoBackend

/-! ## Entity layer (`internal/pkg/entity/user.go`) -/

/-- `entity.User`: timestamps are Unix nanoseconds as `Int`. -/
structure User where
  id        : Int
  email     : String
  username  : String
  password  : String
  name      : String
  role      : String
  isActive  : Bool
  createdAt : Int
  updatedAt : Int
deriving Repr, DecidableEq

/-- `entity.RoleAdmin`. -/
def RoleAdmin : String := "admin"

/-- `entity.RoleUser`. -/
def RoleUser : String := "user"

/-- `entity.RoleViewer`. -/
def RoleViewer : String := "viewer"

/-- `entity.IsValidRole`. -/
def IsValidRole (role : String) : Bool :=
  role = RoleAdmin || role = RoleUser || role = RoleViewer

/-! ## Credential hasher (`internal/pkg/auth/password.go`)

The bcrypt cost constants are those of `golang.org/x/crypto/bcrypt`:
`MinCost = 4`, `MaxCost = 31`, `DefaultCost = 10`. -/

def bcryptMinCost : Int := 4
def bcryptMaxCost : Int := 31
def bcryptDefaultCost : Int := 10

/-- `auth.PasswordHasher`. -/
structure PasswordHasher where
  cost : Int
deriving Repr, DecidableEq

/-- `auth.NewPasswordHasher`: out-of-range costs fall back to the
bcrypt default cost; construction never fails. -/
def NewPasswordHasher (cost : Int) : PasswordHasher :=
  let cost := if cost < bcryptMinCost || cost > bcryptMaxCost then bcryptDefaultCost else cost
  { cost := cost }

/-! ## Domain error taxonomy (`internal/pkg/domain/errors.go`)

Each Go error struct becomes a constructor carrying the same fields.
`InternalServerError.Err` (a wrapped Go `error`) is carried as the
wrapped error's message, `none` when the `Err` field is nil. -/

inductive DomainError where
  | internalServer (msg : String) (err : Option String)
  | unauthorized (reason : String)
  | forbidden (reason : String)
  | validation (field : String) (message : String)
  | userNotFound (id : Int) (email : String)
  | userAlreadyExists (email : String)
  | invalidCredentials
  | invalidRole (role : String)
deriving Repr, DecidableEq

/-- `DomainError.HTTPStatus` as implemented by each error type. -/
def DomainError.httpStatus : DomainError → Nat
  | .internalServer _ _   => 500
  | .unauthorized _       => 401
  | .forbidden _          => 403
  | .validation _ _       => 400
  | .userNotFound _ _     => 404
  | .userAlreadyExists _  => 409
  | .invalidCredentials   => 401
  | .invalidRole _        => 400

/-! ## Token service (`internal/pkg/auth/jwt.go`)

Time is modelled as `Int` nanoseconds (Go `time.Time`/`time.Duration`).
Tokens are modelled symbolically rather than as byte strings: a
well-formed token is its declared signing algorithm, its claims payload
and its signature; the HMAC signature is the (algorithm, key, payload)
triple itself, so two signatures agree exactly when algorithm, key and
signed payload all agree (the standard collision-free symbolic model of
a MAC).  Strings that do not decode as JWTs are `Token.malformed`.
`golang-jwt/jwt/v5` semantics: `ParseWithClaims` runs the keyfunc (the
repo's keyfunc rejects non-HMAC methods), then verifies the signature,
and only then validates the claims, so a signature mismatch is reported
as `ErrTokenSignatureInvalid` even when the token is also expired. -/

def nanosPerHour : Int := 3600 * 1000000000

/-- Signing algorithm declared in a token header.  The repo's keyfunc
accepts any `*jwt.SigningMethodHMAC`; everything else is rejected. -/
inductive SigAlg where
  | hs256
  | hs384
  | hs512
  | nonHmac (name : String)
deriving Repr, DecidableEq

/-- Is the method a `*jwt.SigningMethodHMAC`? -/
def SigAlg.isHmac : SigAlg → Bool
  | .hs256 | .hs384 | .hs512 => true
  | .nonHmac _ => false

/-- `auth.CustomClaims`: `UserId`, `Role` plus the registered claims the
repo sets (`Issuer`, `IssuedAt`, `ExpiresAt`, all others zero). -/
structure CustomClaims where
  userId    : Int
  role      : String
  issuer    : String
  issuedAt  : Int
  expiresAt : Int
deriving Repr, DecidableEq

/-- Symbolic MAC value: algorithm, key and signed payload. -/
structure Mac where
  alg     : SigAlg
  key     : String
  payload : CustomClaims
deriving Repr, DecidableEq

/-- A token string, after base64/JSON decoding: either malformed or a
header-payload-signature triple. -/
inductive Token where
  | malformed (raw : String)
  | signed (alg : SigAlg) (claims : CustomClaims) (sig : Mac)
deriving Repr, DecidableEq

/-- `auth.JWTConfig`. -/
structure JWTConfig where
  secretKey     : String
  tokenDuration : Int
  issuer        : String
deriving Repr, DecidableEq

/-- `auth.JWTService`. -/
structure JWTService where
  secretKey     : String
  tokenDuration : Int
  issuer        : String
deriving Repr, DecidableEq

/-- `auth.NewJWTService`: empty secret is rejected; zero duration
defaults to 24 hours; empty issuer defaults to "go-backend-template". -/
def NewJWTService (config : JWTConfig) : Except String JWTService :=
  if config.secretKey = "" then .error "secret key is required"
  else
    let tokenDuration := if config.tokenDuration = 0 then 24 * nanosPerHour else config.tokenDuration
    let issuer := if config.issuer = "" then "go-backend-template" else config.issuer
    .ok { secretKey := config.secretKey, tokenDuration := tokenDuration, issuer := issuer }

/-- The claims `auth.JWTService.GenerateToken` embeds for user
`userId`/`role` at time `now`. -/
def generatedClaims (s : JWTService) (userId : Int) (role : String) (now : Int) : CustomClaims :=
  { userId := userId, role := role, issuer := s.issuer
    issuedAt := now, expiresAt := now + s.tokenDuration }

/-- `auth.JWTService.GenerateToken`: signs the claims with HS256 under
the service's secret key. -/
def GenerateToken (s : JWTService) (userId : Int) (role : String) (now : Int) : Token :=
  let claims := generatedClaims s userId role now
  .signed .hs256 claims { alg := .hs256, key := s.secretKey, payload := claims }

/-- Claims installed by the middleware (`middleware/auth.Claims`). -/
structure Claims where
  userId : Int
  role   : String
deriving Repr, DecidableEq

/-- The two sentinel errors of `internal/pkg/auth/jwt.go`:
`ErrExpiredToken` and `ErrInvalidToken`. -/
inductive TokenError where
  | expired
  | invalid
deriving Repr, DecidableEq

/-- `auth.JWTService.ValidateToken` at time `now`, following
`jwt/v5.ParseWithClaims` order: decode, keyfunc (rejecting non-HMAC
methods), signature verification, then claims validation (expiry);
`errors.Is(err, jwt.ErrTokenExpired)` holds only for the expiry
failure, so every other failure maps to `ErrInvalidToken`. -/
def ValidateToken (s : JWTService) (tok : Token) (now : Int) : Except TokenError Claims :=
  match tok with
  | .malformed _ => .error .invalid
  | .signed alg claims sig =>
    if !alg.isHmac then
      -- keyfunc returned ErrInvalidToken → ErrTokenUnverifiable, not expired
      .error .invalid
    else if sig ≠ { alg := alg, key := s.secretKey, payload := claims } then
      -- ErrTokenSignatureInvalid, not expired
      .error .invalid
    else if claims.expiresAt < now then
      -- claims validation failed with jwt.ErrTokenExpired
      .error .expired
    else
      .ok { userId := claims.userId, role := claims.role }

/-! ## Access policy middleware (`internal/app/server/middleware/auth/auth.go`)

The per-request gin context is modelled as an explicit state record:
response `Vary` header, abort status/JSON fields, and the request-scoped
identity values installed under the `user_id`/`user_role` context keys.
`handler.GetUserId`/`GetUserRole` use gin's `GetInt`/`GetString`, which
return the zero value (`0`/`""`) when the key is unset. -/

structure GinState where
  varyHeader  : Option String
  status      : Option Nat
  message     : Option String
  dataField   : Option String
  userIdCtx   : Option Int
  userRoleCtx : Option String
  aborted     : Bool
deriving Repr, DecidableEq

/-- Fresh per-request state: identity context starts empty. -/
def GinState.initial : GinState :=
  { varyHeader := none, status := none, message := none, dataField := none
    userIdCtx := none, userRoleCtx := none, aborted := false }

/-- `handler.GetUserId` (`c.GetInt("user_id")`: zero when unset). -/
def getUserId (st : GinState) : Int := st.userIdCtx.getD 0

/-- `handler.GetUserRole` (`c.GetString("user_role")`: empty when unset). -/
def getUserRole (st : GinState) : String := st.userRoleCtx.getD ""

/-- `c.AbortWithStatusJSON(status, gin.H{"message": msg})`. -/
def GinState.abortJSON (st : GinState) (status : Nat) (msg : String) : GinState :=
  { st with aborted := true, status := some status, message := some msg }

def authorizationHeader : String := "Authorization"

def bearerPrefix : String := "Bearer "

/-- `strings.HasPrefix s p`. -/
def goHasPrefix (s p : String) : Bool :=
  p.data.isPrefixOf s.data

/-- `strings.TrimPrefix s p`: `s` without the leading `p` when present,
otherwise `s` unchanged. -/
def goTrimPrefix (s p : String) : String :=
  if goHasPrefix s p then String.mk (s.data.drop p.data.length) else s

/-- Go `string(rune(i))` for an `int` argument: the conversion to
`rune` truncates to 32 bits two's-complement, then `string(r)` is the
one-character string of code point `r` when `r` is a valid code point
(non-negative, below `0x110000`, not a surrogate), and the replacement
character `"�"` otherwise.  Note this is the character with code
point `i`, not the decimal rendering of `i`. -/
def goRuneString (i : Int) : String :=
  let r : Int := (i + 2 ^ 31).emod (2 ^ 32) - 2 ^ 31
  if 0 ≤ r ∧ (r < 0xd800 ∨ (0xdfff < r ∧ r < 0x110000)) then
    String.singleton (Char.ofNat r.toNat)
  else
    "�"

/-- `Middleware.RequireAuth`: sets the `Vary` header, then checks the
`Authorization` header (missing / wrong scheme / empty credential),
then delegates to the validator; on success installs the claims into
the request context.  A request already aborted by an earlier gate is
passed through unchanged (gin short-circuit). -/
def RequireAuth (validate : String → Except TokenError Claims) (authHeader : String)
    (st : GinState) : GinState :=
  if st.aborted then st else
  let st := { st with varyHeader := some authorizationHeader }
  if authHeader = "" then
    st.abortJSON 401 "authorization header is required"
  else if !(goHasPrefix authHeader bearerPrefix) then
    st.abortJSON 401 "invalid authorization header format"
  else
    let tokenString := goTrimPrefix authHeader bearerPrefix
    if tokenString = "" then
      st.abortJSON 401 "token is required"
    else
      match validate tokenString with
      | .error e =>
        { st.abortJSON 401 "invalid token" with
          dataField := some (match e with
            | .expired => "token has expired"
            | .invalid => "invalid token") }
      | .ok claims =>
        { st with userIdCtx := some claims.userId, userRoleCtx := some claims.role }

/-- `Middleware.RequireRole`: pass when the installed role is in the
allow-list, otherwise abort 403. -/
def RequireRole (allowedRoles : List String) (st : GinState) : GinState :=
  if st.aborted then st else
  let userRole := getUserRole st
  if allowedRoles.contains userRole then st
  else st.abortJSON 403 "insufficient permissions"

/-- `Middleware.RequireAdmin = RequireRole(entity.RoleAdmin)`. -/
def RequireAdmin (st : GinState) : GinState :=
  RequireRole [RoleAdmin] st

/-- `Middleware.RequireAdminOrSelf`: admin passes; otherwise the path
parameter (empty string when absent) is compared, as a raw string,
against `string(rune(userId))`. -/
def RequireAdminOrSelf (paramId : String) (st : GinState) : GinState :=
  if st.aborted then st else
  let userRole := getUserRole st
  let userId := getUserId st
  if userRole = RoleAdmin then st
  else if paramId ≠ "" && paramId = goRuneString userId then st
  else st.abortJSON 403 "insufficient permissions"

/-! ## Repository and hasher collaborators (`internal/pkg/repository`,
service dependency interfaces in `service/user/dependencies.go`)

The service's collaborators are injected interfaces; they are modelled
as records of functions.  The repository's sentinel errors
(`ErrUserNotFound`, `ErrDuplicateEmail`) become constructors; any other
storage failure is `other` with its message. -/

inductive RepoErr where
  | userNotFound
  | duplicateEmail
  | other (msg : String)
deriving Repr, DecidableEq

/-- `error.Error()` for a repository error. -/
def repoErrMsg : RepoErr → String
  | .userNotFound    => "user not found"
  | .duplicateEmail  => "email already exists"
  | .other msg       => msg

/-- `IUserRepository` (only the methods the claims exercise). -/
structure UserRepo where
  insertUser         : User → Except RepoErr Int
  getUserById        : Int → Except RepoErr User
  getUserByEmail     : String → Except RepoErr User
  existsUserByEmail  : String → Except RepoErr Bool
  updateUser         : User → Except RepoErr Unit
  updateUserPassword : Int → String → Except RepoErr Unit
  deleteUserById     : Int → Except RepoErr Unit

/-- `IPasswordHasher`: fallible hash, and compare returning `ok` on
match and an error message on mismatch or malformed digest. -/
structure Hasher where
  hash    : String → Except String String
  compare : String → String → Except String Unit

/-- One collaborator invocation, recorded in the order performed. -/
inductive SvcCall where
  | insertUser (u : User)
  | getUserById (id : Int)
  | getUserByEmail (email : String)
  | existsUserByEmail (email : String)
  | updateUser (u : User)
  | updateUserPassword (id : Int) (hashed : String)
  | deleteUserById (id : Int)
  | hash (password : String)
  | compare (hashed : String) (password : String)
deriving Repr, DecidableEq

/-! ## Account service (`internal/app/server/service/user`) -/

structure CreateUserInput where
  email    : String
  username : String
  password : String
  name     : String
  role     : String
deriving Repr, DecidableEq

structure UpdateUserInput where
  id       : Int
  email    : Option String
  username : Option String
  name     : Option String
  role     : Option String
  isActive : Option Bool
deriving Repr, DecidableEq

structure ChangePasswordInput where
  userId          : Int
  currentPassword : String
  newPassword     : String
deriving Repr, DecidableEq

structure LoginInput where
  email    : String
  password : String
deriving Repr, DecidableEq

/-- The `entity.User` value `CreateUser` builds before inserting:
unset fields (`Id`, timestamps) are Go zero values; new accounts
default to active. -/
def newUserRecord (input : CreateUserInput) (hashedPassword : String) : User :=
  { id := 0, email := input.email, username := input.username
    password := hashedPassword, name := input.name, role := input.role
    isActive := true, createdAt := 0, updatedAt := 0 }

/-- `user.Service.CreateUser`: validate role, check email existence,
hash, insert (translating the duplicate-email sentinel).  Returns the
Go result paired with the trace of collaborator calls. -/
def CreateUser (repo : UserRepo) (hasher : Hasher) (input : CreateUserInput) :
    Except DomainError Int × List SvcCall :=
  if !IsValidRole input.role then (.error (.invalidRole input.role), [])
  else
    let log := [SvcCall.existsUserByEmail input.email]
    match repo.existsUserByEmail input.email with
    | .error e => (.error (.internalServer "failed to check email existence" (some (repoErrMsg e))), log)
    | .ok true => (.error (.userAlreadyExists input.email), log)
    | .ok false =>
      let log := log ++ [SvcCall.hash input.password]
      match hasher.hash input.password with
      | .error e => (.error (.internalServer "failed to hash password" (some e)), log)
      | .ok hashedPassword =>
        let user := newUserRecord input hashedPassword
        let log := log ++ [SvcCall.insertUser user]
        match repo.insertUser user with
        | .error .duplicateEmail => (.error (.userAlreadyExists input.email), log)
        | .error e => (.error (.internalServer "failed to create user" (some (repoErrMsg e))), log)
        | .ok userId => (.ok userId, log)

/-- Tail of `user.Service.UpdateUser` after the email step: the
username / name / role / is-active field updates and the conditional
persist. -/
def updateUserRest (repo : UserRepo) (input : UpdateUserInput) (user : User)
    (hasChanges : Bool) (log : List SvcCall) : Except DomainError Unit × List SvcCall :=
  let (user, hasChanges) :=
    match input.username with
    | some u => if u ≠ user.username then ({ user with username := u }, true) else (user, hasChanges)
    | none => (user, hasChanges)
  let (user, hasChanges) :=
    match input.name with
    | some n => if n ≠ user.name then ({ user with name := n }, true) else (user, hasChanges)
    | none => (user, hasChanges)
  let roleStep : Except DomainError (User × Bool) :=
    match input.role with
    | some r =>
      if r ≠ user.role then
        if !IsValidRole r then .error (.invalidRole r)
        else .ok ({ user with role := r }, true)
      else .ok (user, hasChanges)
    | none => .ok (user, hasChanges)
  match roleStep with
  | .error e => (.error e, log)
  | .ok (user, hasChanges) =>
    let (user, hasChanges) :=
      match input.isActive with
      | some a => if a ≠ user.isActive then ({ user with isActive := a }, true) else (user, hasChanges)
      | none => (user, hasChanges)
    if hasChanges then
      let log := log ++ [SvcCall.updateUser user]
      match repo.updateUser user with
      | .error .duplicateEmail => (.error (.userAlreadyExists user.email), log)
      | .error e => (.error (.internalServer "failed to update user" (some (repoErrMsg e))), log)
      | .ok _ => (.ok (), log)
    else
      (.ok (), log)

/-- `user.Service.UpdateUser`: fetch, apply only supplied-and-different
fields (re-checking email uniqueness on an email change), persist only
when something changed. -/
def UpdateUser (repo : UserRepo) (input : UpdateUserInput) :
    Except DomainError Unit × List SvcCall :=
  let log := [SvcCall.getUserById input.id]
  match repo.getUserById input.id with
  | .error .userNotFound => (.error (.userNotFound input.id ""), log)
  | .error e => (.error (.internalServer "failed to get user" (some (repoErrMsg e))), log)
  | .ok user =>
    match input.email with
    | some newEmail =>
      if newEmail ≠ user.email then
        let log := log ++ [SvcCall.existsUserByEmail newEmail]
        match repo.existsUserByEmail newEmail with
        | .error e => (.error (.internalServer "failed to check email existence" (some (repoErrMsg e))), log)
        | .ok true => (.error (.userAlreadyExists newEmail), log)
        | .ok false => updateUserRest repo input { user with email := newEmail } true log
      else updateUserRest repo input user false log
    | none => updateUserRest repo input user false log

/-- `user.Service.ChangePassword`: fetch, verify the current secret
(mismatch collapses to invalid-credentials), hash and persist the new
secret. -/
def ChangePassword (repo : UserRepo) (hasher : Hasher) (input : ChangePasswordInput) :
    Except DomainError Unit × List SvcCall :=
  let log := [SvcCall.getUserById input.userId]
  match repo.getUserById input.userId with
  | .error .userNotFound => (.error (.userNotFound input.userId ""), log)
  | .error e => (.error (.internalServer "failed to get user" (some (repoErrMsg e))), log)
  | .ok user =>
    let log := log ++ [SvcCall.compare user.password input.currentPassword]
    match hasher.compare user.password input.currentPassword with
    | .error _ => (.error .invalidCredentials, log)
    | .ok _ =>
      let log := log ++ [SvcCall.hash input.newPassword]
      match hasher.hash input.newPassword with
      | .error e => (.error (.internalServer "failed to hash password" (some e)), log)
      | .ok hashedPassword =>
        let log := log ++ [SvcCall.updateUserPassword input.userId hashedPassword]
        match repo.updateUserPassword input.userId hashedPassword with
        | .error e => (.error (.internalServer "failed to update password" (some (repoErrMsg e))), log)
        | .ok _ => (.ok (), log)

/-- `user.Service.Login`: fetch by email, check the active flag, verify
the secret; absence, inactivity and mismatch all collapse to
invalid-credentials. -/
def Login (repo : UserRepo) (hasher : Hasher) (input : LoginInput) :
    Except DomainError User × List SvcCall :=
  let log := [SvcCall.getUserByEmail input.email]
  match repo.getUserByEmail input.email with
  | .error .userNotFound => (.error .invalidCredentials, log)
  | .error e => (.error (.internalServer "failed to get user" (some (repoErrMsg e))), log)
  | .ok user =>
    if !user.isActive then (.error .invalidCredentials, log)
    else
      let log := log ++ [SvcCall.compare user.password input.password]
      match hasher.compare user.password input.password with
      | .error _ => (.error .invalidCredentials, log)
      | .ok _ => (.ok user, log)

/-! ## Handler layer (`internal/app/server/handler`) -/

/-- `domain` error `Error()` strings, as rendered by each error type. -/
def DomainError.errorMsg : DomainError → String
  | .internalServer msg err =>
    match err with
    | some e => msg ++ ": " ++ e
    | none => msg
  | .unauthorized reason => "unauthorized: " ++ reason
  | .forbidden reason => "forbidden: " ++ reason
  | .validation field message =>
    let quote := String.singleton (Char.ofNat 39)
    if field ≠ "" then
      "validation error on field " ++ quote ++ field ++ quote ++ ": " ++ message
    else "validation error: " ++ message
  | .userNotFound id email =>
    if id ≠ 0 then "user not found with id: " ++ toString id
    else if email ≠ "" then "user not found with email: " ++ email
    else "user not found"
  | .userAlreadyExists email => "user already exists with email: " ++ email
  | .invalidCredentials => "invalid email or password"
  | .invalidRole role => "invalid role: " ++ role

/-- `strconv.Atoi`: optional sign, at least one digit, all digits,
64-bit range; any failure (including range) is an error, which is all
the handler inspects. -/
def goAtoi (s : String) : Option Int :=
  let (sign, digits) :=
    match s.data with
    | '+' :: rest => ((1 : Int), rest)
    | '-' :: rest => ((-1 : Int), rest)
    | cs => ((1 : Int), cs)
  if digits.isEmpty then none
  else if digits.all Char.isDigit then
    let n : Nat := digits.foldl (fun acc c => acc * 10 + (c.toNat - 48)) 0
    let v : Int := sign * n
    if -(2 ^ 63) ≤ v ∧ v < 2 ^ 63 then some v else none
  else none

/-- `user.ChangePasswordRequest` (after a successful JSON bind). -/
structure ChangePasswordRequest where
  currentPassword : String
  newPassword     : String
deriving Repr, DecidableEq

/-- `ChangePasswordRequest.Validate`. -/
def ChangePasswordRequest.validate (r : ChangePasswordRequest) : Except String Unit :=
  if r.currentPassword = r.newPassword then
    .error "new password must be different from current password"
  else .ok ()

/-- What the `BaseHandler` response helpers ultimately write: an abort
with status and message, or a success body. -/
inductive HandlerOutcome where
  | errorResp (status : Nat) (message : String)
  | successMsg (status : Nat) (message : String)
deriving Repr, DecidableEq

/-- `user.Handler.ChangePassword` after a successful JSON bind: parse
the `:id` path parameter, run DTO validation, then call the service;
paired with the trace of collaborator calls the request caused. -/
def handlerChangePassword (repo : UserRepo) (hasher : Hasher) (idParam : String)
    (req : ChangePasswordRequest) : HandlerOutcome × List SvcCall :=
  match goAtoi idParam with
  | none => (.errorResp 400 "invalid user id", [])
  | some userId =>
    match req.validate with
    | .error msg => (.errorResp 400 msg, [])
    | .ok _ =>
      let input : ChangePasswordInput :=
        { userId := userId, currentPassword := req.currentPassword
          newPassword := req.newPassword }
      match ChangePassword repo hasher input with
      | (.error e, calls) => (.errorResp e.httpStatus e.errorMsg, calls)
      | (.ok _, calls) => (.successMsg 200 "password changed successfully", calls)

/-! ## Concrete collaborator instances

Test doubles in the spirit of the repository's own mocks, used to
instantiate the universally quantified statements below on concrete
inputs. -/

/-- A storage double with no users at all. -/
def emptyRepo : UserRepo :=
  { insertUser := fun _ => .error (.other "insert failed")
    getUserById := fun _ => .error .userNotFound
    getUserByEmail := fun _ => .error .userNotFound
    existsUserByEmail := fun _ => .ok false
    updateUser := fun _ => .error .userNotFound
    updateUserPassword := fun _ _ => .error .userNotFound
    deleteUserById := fun _ => .error .userNotFound }

/-- A storage double holding exactly the user `u`. -/
def repoWith (u : User) : UserRepo :=
  { emptyRepo with
    getUserById := fun i => if i = u.id then .ok u else .error .userNotFound
    getUserByEmail := fun e => if e = u.email then .ok u else .error .userNotFound
    existsUserByEmail := fun e => .ok (e = u.email) }

/-- A storage double whose existence check always reports the email as
taken. -/
def repoEmailTaken : UserRepo :=
  { emptyRepo with existsUserByEmail := fun _ => .ok true }

/-- A storage double whose insert reports a duplicate-email violation
(the database uniqueness constraint firing). -/
def repoInsertDuplicate : UserRepo :=
  { emptyRepo with insertUser := fun _ => .error .duplicateEmail }

/-- A deterministic hasher double: digest is `"h:" ++ password`. -/
def plainHasher : Hasher :=
  { hash := fun p => .ok ("h:" ++ p)
    compare := fun d p => if d = "h:" ++ p then .ok () else .error "mismatch" }

/-- A sample stored account. -/
def sampleUser : User :=
  { id := 7, email := "seven@example.com", username := "seven"
    password := "h:correct-pw", name := "Seven", role := "user"
    isActive := true, createdAt := 0, updatedAt := 0 }

/-- Request context after the auth gate installed identity id 7, role
`"user"`. -/
def ctxUser7 : GinState :=
  { GinState.initial with userIdCtx := some 7, userRoleCtx := some "user" }

/-- Request context after the auth gate installed an administrator. -/
def ctxAdmin3 : GinState :=
  { GinState.initial with userIdCtx := some 3, userRoleCtx := some "admin" }

/-- A validator double accepting every token as user 5, role "user". -/
def acceptAllValidator : String → Except TokenError Claims :=
  fun _ => .ok { userId := 5, role := "user" }

/-- A sample create-account request. -/
def createInputSample : CreateUserInput :=
  { email := "seven@example.com", username := "seven", password := "correct-pw"
    name := "Seven", role := "user" }

/-- An update request supplying every field with the stored value of
`sampleUser`. -/
def sameUpdateInput : UpdateUserInput :=
  { id := 7, email := some sampleUser.email, username := some sampleUser.username
    name := some sampleUser.name, role := some sampleUser.role
    isActive := some sampleUser.isActive }

/-! ## Theorems -/

/-- C1: the self-or-admin gate compares the path parameter against
`string(rune(userId))` — the character with code point `userId` — not
against the decimal rendering of `userId`.  Evaluating the gate: the
identity with id 7 and role "user" is rejected (403) for its own target
path id 7 (the claim says it passes), and also for path id 8; an
administrator passes for any path id; and, exhibiting the coercion, the
unrelated identity with id 55 (the code point of the digit '7') passes
for target path id 7. -/
theorem requireAdminOrSelf_rune_comparison_rejects_self :
    (RequireAdminOrSelf "7" ctxUser7).aborted = true ∧
    (RequireAdminOrSelf "7" ctxUser7).status = some 403 ∧
    (RequireAdminOrSelf "8" ctxUser7).aborted = true ∧
    (RequireAdminOrSelf "9999" ctxAdmin3).aborted = false ∧
    (RequireAdminOrSelf "7"
      { GinState.initial with userIdCtx := some 55, userRoleCtx := some "user" }).aborted = false := by
  decide

/-- C9: constructing the credential hasher with a cost outside the
bcrypt range `[MinCost, MaxCost]` succeeds and falls back to the
documented `DefaultCost`; an in-range cost is used as configured. -/
theorem newPasswordHasher_cost_policy (cost : Int) :
    ((cost < bcryptMinCost ∨ bcryptMaxCost < cost) →
      NewPasswordHasher cost = { cost := bcryptDefaultCost }) ∧
    (bcryptMinCost ≤ cost → cost ≤ bcryptMaxCost →
      NewPasswordHasher cost = { cost := cost }) := by
  unfold NewPasswordHasher bcryptMinCost bcryptMaxCost bcryptDefaultCost
  constructor
  · intro h
    have hc : (decide (cost < 4) || decide (cost > 31)) = true := by
      rcases h with h | h <;> simp [h]
    simp [hc]
  · intro h1 h2
    have hc : (decide (cost < 4) || decide (cost > 31)) = true ↔ False := by
      simp; omega
    simp [hc]

/-- C9 witness: cost 99 is clamped to the default cost 10; cost 12 is
kept. -/
theorem newPasswordHasher_cost_policy_witness :
    NewPasswordHasher 99 = { cost := bcryptDefaultCost } ∧
    NewPasswordHasher 12 = { cost := 12 } :=
  ⟨(newPasswordHasher_cost_policy 99).1 (Or.inr (by decide)),
   (newPasswordHasher_cost_policy 12).2 (by decide) (by decide)⟩

/-- C3: token verification always yields exactly one of valid claims,
the expired error, or the invalid error; and a token generated under
one secret key, verified under a service with a different secret key,
always yields the invalid error — never expired — regardless of the
verification time. -/
theorem validateToken_three_outcomes_and_cross_secret_invalid :
    (∀ (s : JWTService) (tok : Token) (now : Int),
        (∃ c, ValidateToken s tok now = .ok c) ∨
        ValidateToken s tok now = .error .expired ∨
        ValidateToken s tok now = .error .invalid) ∧
    (∀ (s₁ s₂ : JWTService) (userId : Int) (role : String) (issueTime verifyTime : Int),
        s₁.secretKey ≠ s₂.secretKey →
        ValidateToken s₂ (GenerateToken s₁ userId role issueTime) verifyTime =
          .error .invalid) := by
  constructor
  · intro s tok now
    cases h : ValidateToken s tok now with
    | ok c => exact Or.inl ⟨c, rfl⟩
    | error e => cases e with
      | expired => exact Or.inr (Or.inl rfl)
      | invalid => exact Or.inr (Or.inr rfl)
  · intro s₁ s₂ userId role issueTime verifyTime hkey
    simp [GenerateToken, ValidateToken, SigAlg.isHmac, Mac.mk.injEq, hkey]

/-- C3 witness: a concrete token signed under secret "secret-a" is
invalid — not expired — under secret "secret-b". -/
theorem validateToken_cross_secret_witness :
    ValidateToken ⟨"secret-b", nanosPerHour, "iss"⟩
      (GenerateToken ⟨"secret-a", nanosPerHour, "iss"⟩ 1 "user" 0) 0 =
      .error .invalid :=
  validateToken_three_outcomes_and_cross_secret_invalid.2
    ⟨"secret-a", nanosPerHour, "iss"⟩ ⟨"secret-b", nanosPerHour, "iss"⟩
    1 "user" 0 0 (by decide)

/-- C4 counterexample: `NewJWTService` accepts a negative configured
lifetime unchanged (only the exact value 0 triggers the 24-hour
default), so the token issued at time 0 carries expiry -1, which is not
strictly after its issued-at 0 — refuting "for every issued token, the
expiry timestamp is strictly after the issued-at timestamp". -/
theorem generateToken_negative_duration_counterexample :
    NewJWTService ⟨"k", -1, "i"⟩ = .ok ⟨"k", -1, "i"⟩ ∧
    (generatedClaims ⟨"k", -1, "i"⟩ 1 "user" 0).issuedAt = 0 ∧
    (generatedClaims ⟨"k", -1, "i"⟩ 1 "user" 0).expiresAt = -1 ∧
    GenerateToken ⟨"k", -1, "i"⟩ 1 "user" 0 =
      .signed .hs256 (generatedClaims ⟨"k", -1, "i"⟩ 1 "user" 0)
        ⟨.hs256, "k", generatedClaims ⟨"k", -1, "i"⟩ 1 "user" 0⟩ ∧
    ¬ ((generatedClaims ⟨"k", -1, "i"⟩ 1 "user" 0).issuedAt <
        (generatedClaims ⟨"k", -1, "i"⟩ 1 "user" 0).expiresAt) :=
  ⟨rfl, rfl, rfl, rfl, by decide⟩

/-- C4 (amended): for a token service constructed from a configuration
with a nonnegative lifetime, issued tokens carry issued-at equal to the
issuance time and expiry equal to that time plus the service lifetime,
a zero configured lifetime defaults to 24 hours, and expiry is strictly
after issued-at. -/
theorem generateToken_issuedAt_expiry (config : JWTConfig) (s : JWTService)
    (userId : Int) (role : String) (now : Int)
    (hcons : NewJWTService config = .ok s) (hdur : 0 ≤ config.tokenDuration) :
    (generatedClaims s userId role now).issuedAt = now ∧
    (generatedClaims s userId role now).expiresAt = now + s.tokenDuration ∧
    (config.tokenDuration = 0 → s.tokenDuration = 24 * nanosPerHour) ∧
    (generatedClaims s userId role now).issuedAt <
      (generatedClaims s userId role now).expiresAt ∧
    GenerateToken s userId role now =
      .signed .hs256 (generatedClaims s userId role now)
        ⟨.hs256, s.secretKey, generatedClaims s userId role now⟩ := by
  unfold NewJWTService at hcons
  split at hcons
  · exact absurd hcons (by simp)
  · rw [Except.ok.injEq] at hcons
    subst hcons
    refine ⟨rfl, rfl, fun h0 => by simp [h0], ?_, rfl⟩
    simp only [generatedClaims]
    split
    · simp [nanosPerHour]
    · omega

/-- C4 witness: a service built with the unset (zero) lifetime gets the
24-hour default, and its token issued at time 5 expires strictly
later. -/
theorem generateToken_issuedAt_expiry_witness :
    (generatedClaims ⟨"k", 24 * nanosPerHour, "i"⟩ 2 "admin" 5).issuedAt = 5 ∧
    (generatedClaims ⟨"k", 24 * nanosPerHour, "i"⟩ 2 "admin" 5).expiresAt =
      5 + (24 * nanosPerHour) ∧
    ((0 : Int) = 0 → (24 * nanosPerHour : Int) = 24 * nanosPerHour) ∧
    (generatedClaims ⟨"k", 24 * nanosPerHour, "i"⟩ 2 "admin" 5).issuedAt <
      (generatedClaims ⟨"k", 24 * nanosPerHour, "i"⟩ 2 "admin" 5).expiresAt ∧
    GenerateToken ⟨"k", 24 * nanosPerHour, "i"⟩ 2 "admin" 5 =
      .signed .hs256 (generatedClaims ⟨"k", 24 * nanosPerHour, "i"⟩ 2 "admin" 5)
        ⟨.hs256, "k", generatedClaims ⟨"k", 24 * nanosPerHour, "i"⟩ 2 "admin" 5⟩ :=
  generateToken_issuedAt_expiry ⟨"k", 0, "i"⟩ ⟨"k", 24 * nanosPerHour, "i"⟩
    2 "admin" 5 (by rfl) (by decide)

/-- C2: the three login failure cases — no account under the email, an
inactive account, and a wrong password on an active account — all
return the very same error value, the field-less invalid-credentials
error. -/
theorem login_failure_cases_identical (repo : UserRepo) (hasher : Hasher) (input : LoginInput) :
    (repo.getUserByEmail input.email = .error .userNotFound →
      (Login repo hasher input).1 = .error .invalidCredentials) ∧
    (∀ u, repo.getUserByEmail input.email = .ok u → u.isActive = false →
      (Login repo hasher input).1 = .error .invalidCredentials) ∧
    (∀ u msg, repo.getUserByEmail input.email = .ok u → u.isActive = true →
      hasher.compare u.password input.password = .error msg →
      (Login repo hasher input).1 = .error .invalidCredentials) := by
  refine ⟨fun h => ?_, fun u h hact => ?_, fun u msg h hact hcmp => ?_⟩ <;>
    simp [Login, h]
  · simp [hact]
  · simp [hact, hcmp]

/-- C2 witness: on concrete collaborators, the absent-email, inactive
and wrong-password logins all evaluate to the identical
invalid-credentials error. -/
theorem login_failure_cases_identical_witness :
    (Login emptyRepo plainHasher ⟨"seven@example.com", "correct-pw"⟩).1 =
      .error .invalidCredentials ∧
    (Login (repoWith { sampleUser with isActive := false }) plainHasher
      ⟨"seven@example.com", "correct-pw"⟩).1 = .error .invalidCredentials ∧
    (Login (repoWith sampleUser) plainHasher ⟨"seven@example.com", "wrong-pw"⟩).1 =
      .error .invalidCredentials :=
  ⟨(login_failure_cases_identical emptyRepo plainHasher _).1 rfl,
   (login_failure_cases_identical _ plainHasher _).2.1
     { sampleUser with isActive := false } rfl rfl,
   (login_failure_cases_identical _ plainHasher _).2.2
     sampleUser "mismatch" rfl rfl rfl⟩

/-- C5: for a create-account request with a valid role, if the
existence check reports the email as taken, the service returns
already-exists and the insert operation is never invoked; and if the
existence check passes but the insert itself reports the
duplicate-email violation, the service returns the same already-exists
error. -/
theorem createUser_alreadyExists_paths (repo : UserRepo) (hasher : Hasher)
    (input : CreateUserInput) (hrole : IsValidRole input.role = true) :
    (repo.existsUserByEmail input.email = .ok true →
      (CreateUser repo hasher input).1 = .error (.userAlreadyExists input.email) ∧
      ∀ u, SvcCall.insertUser u ∉ (CreateUser repo hasher input).2) ∧
    (∀ hashed, repo.existsUserByEmail input.email = .ok false →
      hasher.hash input.password = .ok hashed →
      repo.insertUser (newUserRecord input hashed) = .error .duplicateEmail →
      (CreateUser repo hasher input).1 = .error (.userAlreadyExists input.email)) := by
  constructor
  · intro hex
    refine ⟨by simp [CreateUser, hrole, hex], fun u => ?_⟩
    simp [CreateUser, hrole, hex]
  · intro hashed hex hh hins
    simp [CreateUser, hrole, hex, hh, hins]

/-- C5 witness: concrete doubles — existence check reporting the email
taken (no insert in the trace), and an insert reporting the duplicate
violation — both yield already-exists. -/
theorem createUser_alreadyExists_paths_witness :
    (CreateUser repoEmailTaken plainHasher createInputSample).1 =
      .error (.userAlreadyExists "seven@example.com") ∧
    SvcCall.insertUser (newUserRecord createInputSample "h:correct-pw") ∉
      (CreateUser repoEmailTaken plainHasher createInputSample).2 ∧
    (CreateUser repoInsertDuplicate plainHasher createInputSample).1 =
      .error (.userAlreadyExists "seven@example.com") :=
  ⟨((createUser_alreadyExists_paths repoEmailTaken plainHasher createInputSample rfl).1 rfl).1,
   ((createUser_alreadyExists_paths repoEmailTaken plainHasher createInputSample rfl).1 rfl).2
     (newUserRecord createInputSample "h:correct-pw"),
   (createUser_alreadyExists_paths repoInsertDuplicate plainHasher createInputSample rfl).2
     "h:correct-pw" rfl rfl rfl⟩

/-- C6: an update request against an existing record in which every
supplied field equals the stored value (each field either absent or
equal) returns success, and the storage update operation is never
invoked. -/
theorem updateUser_noop_without_changes (repo : UserRepo) (input : UpdateUserInput) (u : User)
    (hget : repo.getUserById input.id = .ok u)
    (hemail : input.email = none ∨ input.email = some u.email)
    (husername : input.username = none ∨ input.username = some u.username)
    (hname : input.name = none ∨ input.name = some u.name)
    (hrole : input.role = none ∨ input.role = some u.role)
    (hactive : input.isActive = none ∨ input.isActive = some u.isActive) :
    (UpdateUser repo input).1 = .ok () ∧
    ∀ v, SvcCall.updateUser v ∉ (UpdateUser repo input).2 := by
  have hrun : UpdateUser repo input = (.ok (), [SvcCall.getUserById input.id]) := by
    rcases hemail with h1 | h1 <;> rcases husername with h2 | h2 <;>
      rcases hname with h3 | h3 <;> rcases hrole with h4 | h4 <;>
      rcases hactive with h5 | h5 <;>
      simp [UpdateUser, updateUserRest, hget, h1, h2, h3, h4, h5]
  rw [hrun]
  exact ⟨rfl, by simp⟩

/-- C6 witness: updating `sampleUser` with every field supplied equal
to its stored value succeeds without any storage update call. -/
theorem updateUser_noop_without_changes_witness :
    (UpdateUser (repoWith sampleUser) sameUpdateInput).1 = .ok () ∧
    ∀ v, SvcCall.updateUser v ∉ (UpdateUser (repoWith sampleUser) sameUpdateInput).2 :=
  updateUser_noop_without_changes (repoWith sampleUser) sameUpdateInput sampleUser
    rfl (Or.inr rfl) (Or.inr rfl) (Or.inr rfl) (Or.inr rfl) (Or.inr rfl)

/-- C7: on a fresh request the authentication gate always sets the
`Vary: Authorization` caching hint, whatever the outcome; a missing
header aborts 401 with the header-required message; a header without
the bearer prefix aborts with the malformed-format message; a bearer
prefix with nothing after it aborts with the token-required message;
and a header whose credential the validator accepts installs the
claims' user id and role into the request context. -/
theorem requireAuth_gate (validate : String → Except TokenError Claims) (header : String) :
    ((RequireAuth validate header GinState.initial).varyHeader = some authorizationHeader) ∧
    (header = "" →
      RequireAuth validate header GinState.initial =
        GinState.abortJSON { GinState.initial with varyHeader := some authorizationHeader }
          401 "authorization header is required") ∧
    (header ≠ "" → goHasPrefix header bearerPrefix = false →
      RequireAuth validate header GinState.initial =
        GinState.abortJSON { GinState.initial with varyHeader := some authorizationHeader }
          401 "invalid authorization header format") ∧
    (goHasPrefix header bearerPrefix = true → goTrimPrefix header bearerPrefix = "" →
      RequireAuth validate header GinState.initial =
        GinState.abortJSON { GinState.initial with varyHeader := some authorizationHeader }
          401 "token is required") ∧
    (∀ c, goHasPrefix header bearerPrefix = true → goTrimPrefix header bearerPrefix ≠ "" →
      validate (goTrimPrefix header bearerPrefix) = .ok c →
      RequireAuth validate header GinState.initial =
        { GinState.initial with
          varyHeader := some authorizationHeader
          userIdCtx := some c.userId
          userRoleCtx := some c.role }) := by
  refine ⟨?_, ?_, ?_, ?_, ?_⟩
  · unfold RequireAuth GinState.abortJSON
    split
    · simp_all [GinState.initial]
    · split
      · rfl
      · split
        · rfl
        · dsimp only
          split
          · rfl
          · split <;> rfl
  · intro h; subst h; rfl
  · intro hne hpre
    unfold RequireAuth
    simp [GinState.initial, hne, hpre]
  · intro hpre hdrop
    have hne : header ≠ "" := by
      intro h; subst h; exact absurd hpre (by decide)
    unfold RequireAuth
    simp [GinState.initial, hne, hpre, hdrop]
  · intro c hpre hdrop hval
    have hne : header ≠ "" := by
      intro h; subst h; exact absurd hpre (by decide)
    unfold RequireAuth
    simp [GinState.initial, hne, hpre, hdrop, hval]

/-- C7 witness: the four concrete header shapes from the repository's
own tests — absent, `"Basic xyz"`, `"Bearer "` and `"Bearer tok"` under
an accepting validator. -/
theorem requireAuth_gate_witness :
    RequireAuth acceptAllValidator "" GinState.initial =
      GinState.abortJSON { GinState.initial with varyHeader := some authorizationHeader }
        401 "authorization header is required" ∧
    RequireAuth acceptAllValidator "Basic xyz" GinState.initial =
      GinState.abortJSON { GinState.initial with varyHeader := some authorizationHeader }
        401 "invalid authorization header format" ∧
    RequireAuth acceptAllValidator "Bearer " GinState.initial =
      GinState.abortJSON { GinState.initial with varyHeader := some authorizationHeader }
        401 "token is required" ∧
    RequireAuth acceptAllValidator "Bearer tok" GinState.initial =
      { GinState.initial with
        varyHeader := some authorizationHeader
        userIdCtx := some 5
        userRoleCtx := some "user" } :=
  ⟨(requireAuth_gate acceptAllValidator "").2.1 rfl,
   (requireAuth_gate acceptAllValidator "Basic xyz").2.2.1 (by decide) (by decide),
   (requireAuth_gate acceptAllValidator "Bearer ").2.2.2.1 (by decide) (by decide),
   (requireAuth_gate acceptAllValidator "Bearer tok").2.2.2.2 ⟨5, "user"⟩
     (by decide) (by decide) rfl⟩

/-- C8: a change-password request whose new password equals the current
password (with a well-formed id path parameter) is rejected by the DTO
validation with status 400, and no collaborator call happens — in
particular the hasher's hash operation is never invoked. -/
theorem handlerChangePassword_samePassword_rejected_before_hashing
    (repo : UserRepo) (hasher : Hasher) (idParam : String) (req : ChangePasswordRequest)
    (hid : (goAtoi idParam).isSome = true)
    (heq : req.currentPassword = req.newPassword) :
    (handlerChangePassword repo hasher idParam req).1 =
      .errorResp 400 "new password must be different from current password" ∧
    (handlerChangePassword repo hasher idParam req).2 = [] ∧
    ∀ p, SvcCall.hash p ∉ (handlerChangePassword repo hasher idParam req).2 := by
  obtain ⟨uid, huid⟩ := Option.isSome_iff_exists.mp hid
  simp [handlerChangePassword, huid, ChangePasswordRequest.validate, heq]

/-- C8 witness: the concrete request reusing the current password on
path id 7 is rejected with an empty collaborator trace. -/
theorem handlerChangePassword_samePassword_witness :
    (handlerChangePassword emptyRepo plainHasher "7"
      { currentPassword := "same-pw", newPassword := "same-pw" }).1 =
      .errorResp 400 "new password must be different from current password" ∧
    (handlerChangePassword emptyRepo plainHasher "7"
      { currentPassword := "same-pw", newPassword := "same-pw" }).2 = [] ∧
    ∀ p, SvcCall.hash p ∉ (handlerChangePassword emptyRepo plainHasher "7"
      { currentPassword := "same-pw", newPassword := "same-pw" }).2 :=
  handlerChangePassword_samePassword_rejected_before_hashing emptyRepo plainHasher "7"
    { currentPassword := "same-pw", newPassword := "same-pw" } (by decide) rfl

/-- C10: a change-password request for an id with no stored record
returns the user-not-found error — status class 404, resource absent —
which is a different error value than invalid-credentials, so account
existence is observable through change-password (unlike login). -/
theorem changePassword_missing_user_not_found (repo : UserRepo) (hasher : Hasher)
    (input : ChangePasswordInput)
    (h : repo.getUserById input.userId = .error .userNotFound) :
    (ChangePassword repo hasher input).1 = .error (.userNotFound input.userId "") ∧
    (DomainError.userNotFound input.userId "").httpStatus = 404 ∧
    DomainError.userNotFound input.userId "" ≠ DomainError.invalidCredentials := by
  refine ⟨by simp [ChangePassword, h], rfl, by simp⟩

/-- C10 witness: changing the password of the absent id 9 on the empty
storage double yields the not-found error. -/
theorem changePassword_missing_user_not_found_witness :
    (ChangePassword emptyRepo plainHasher
      { userId := 9, currentPassword := "cur", newPassword := "new" }).1 =
      .error (.userNotFound 9 "") ∧
    (DomainError.userNotFound 9 "").httpStatus = 404 ∧
    DomainError.userNotFound 9 "" ≠ DomainError.invalidCredentials :=
  changePassword_missing_user_not_found emptyRepo plainHasher
    { userId := 9, currentPassword := "cur", newPassword := "new" } rfl

end GoBackend
